import Mathlib

/-!
Verification of the Grant-Writer-Agent data-collection pipeline.

The development shallowly embeds the Python sources:
  * `src/grant-data-collector.py` (Grant model, scrape_site,
    get_html_content_and_extract_text, extract_grant_info, run_pipeline),
  * `src/organisation-data-collector.py` (scrape_site, identical link logic
    with a different keyword list),
  * `src/api/services/grant_data_service.py` (GrantDataService.collect_grants),
  * `src/agents/organisation_url_finder_agent.py` (the LangGraph
    search/process loop).

Side effects (HTTP fetches via requests, trafilatura extraction, the
ChatOpenAI call, pydantic JSON validation) are modelled as an explicit
environment of oracle functions; raised exceptions become `Except.error`,
Python `None` becomes `Option.none`.
-/

namespace GrantWriter

/-! ## Python string primitives, modelled over `List Char` -/

/-- Python `s.lower()` (ASCII-relevant part): lowercase every character. -/
def pyLower (s : String) : String := String.mk (s.toList.map Char.toLower)

/-- Python `sub in s`: `sub` occurs as a contiguous substring of `s`. -/
def substrB (sub s : String) : Bool := decide (sub.toList <:+: s.toList)

/-- Python `s.startswith(pre)`. -/
def pyStartswith (s pre : String) : Bool := decide (pre.toList <+: s.toList)

/-- Python `s.rstrip('/')`: drop every trailing `'/'`. -/
def rstripSlash (s : String) : String :=
  String.mk ((s.toList.reverse.dropWhile (fun c => c == '/')).reverse)

/-- Python `s.strip()` with no argument: drop leading and trailing whitespace. -/
def pyStripWs (s : String) : String :=
  String.mk (((s.toList.dropWhile Char.isWhitespace).reverse.dropWhile
    Char.isWhitespace).reverse)

/-! ## The Grant schema (`class Grant(BaseModel)`, grant-data-collector.py 11-25)

`eligible_applicants: list = []` holds the LLM's strings; `contact_info:
dict = {...}` is modelled as an association list, its Python default
`{"email": ..., "phone": ..., "address": ...}` kept verbatim. -/

structure Grant where
  grant_name : String := "Not specified"
  funding_priorities : String := "Not specified"
  types_of_grant : String := "Not specified"
  eligibility_criteria : String := "Not specified"
  eligible_applicants : List String := []
  eligible_locations : String := "Not specified"
  grant_amount_range : String := "Not specified"
  grant_amount : String := "Not specified"
  proposal_deadline : String := "Not specified"
  recurrence : String := "Not specified"
  contact_info : List (String × String) :=
    [("email", "Not specified"), ("phone", "Not specified"),
     ("address", "Not specified")]
  organization_info : String := "Not specified"
  grant_summary : String := "Not specified"
  grant_url : String := "Not specified"
deriving DecidableEq, Repr

/-- A Python field value: a string, a list of strings, or a dict. Lets one
state claims that compare fields of different runtime types. -/
inductive Val where
  | str : String → Val
  | list : List String → Val
  | dict : List (String × String) → Val
deriving DecidableEq, Repr

/-- The fourteen declared fields of the Grant model, in declaration order. -/
inductive GrantField where
  | grant_name | funding_priorities | types_of_grant | eligibility_criteria
  | eligible_applicants | eligible_locations | grant_amount_range
  | grant_amount | proposal_deadline | recurrence | contact_info
  | organization_info | grant_summary | grant_url
deriving DecidableEq, Repr

/-- The runtime value a Grant holds at each declared field. -/
def Grant.fieldValue (g : Grant) : GrantField → Val
  | .grant_name => .str g.grant_name
  | .funding_priorities => .str g.funding_priorities
  | .types_of_grant => .str g.types_of_grant
  | .eligibility_criteria => .str g.eligibility_criteria
  | .eligible_applicants => .list g.eligible_applicants
  | .eligible_locations => .str g.eligible_locations
  | .grant_amount_range => .str g.grant_amount_range
  | .grant_amount => .str g.grant_amount
  | .proposal_deadline => .str g.proposal_deadline
  | .recurrence => .str g.recurrence
  | .contact_info => .dict g.contact_info
  | .organization_info => .str g.organization_info
  | .grant_summary => .str g.grant_summary
  | .grant_url => .str g.grant_url

/-! ## Link discovery (`scrape_site`, grant-data-collector.py 28-63 and
organisation-data-collector.py 24-59) -/

/-- The keyword list of the grant collector's anchor filter (line 39). -/
def grantKeywords : List String :=
  ["grant", "apply", "fund", "fellowship", "opportunity", "scholarship",
   "award", "funding", "faq", "eligibility", "criteria", "how-to-apply",
   "guidelines", "about", "programs"]

/-- The keyword list of the organisation collector's anchor filter (line 35). -/
def orgKeywords : List String :=
  ["home", "about", "faq", "contact", "reach", "mission", "vision", "history",
   "background", "team", "staff", "board", "leadership", "who-we-are",
   "our-story", "get-in-touch", "reach-us", "contact-us", "about-us",
   "mission", "our-vision", "what-we-do", "help", "support"]

/-- The relative-URL fix of both collectors (grant 42-45, organisation 38-41):
a link starting with `/` is glued to the rstripped root, a link not starting
with `http` is glued with a `/` in between, any other link is untouched. -/
def fixLink (url l : String) : String :=
  if pyStartswith l "/" then rstripSlash url ++ l
  else if !(pyStartswith l "http") then rstripSlash url ++ "/" ++ l
  else l

/-- The anchor filter: some keyword occurs in the lowercased link (line 39). -/
def keywordHit (kws : List String) (l : String) : Bool :=
  kws.any (fun x => substrB x (pyLower l))

/-- Keyword-filter the hrefs and fix each survivor (the loop, lines 37-46). -/
def filterLinks (kws : List String) (url : String) (links : List String) :
    List String :=
  (links.filter (keywordHit kws)).map (fixLink url)

/-- The pure part of `scrape_site` applied to the root page's hrefs: filter
and fix the links, add the root URL when absent (lines 49-51), and remove
duplicates through a set (line 55, `list(set(...))`; its element order is
unspecified, `List.dedup` is one representative). -/
def scrapeLinksFrom (kws : List String) (url : String) (links : List String) :
    List String :=
  let gl := filterLinks kws url links
  let gl2 := if url ∈ gl then gl else gl ++ [url]
  gl2.dedup

/-! ## The effectful environment -/

/-- A `requests.get` response: its status code, its body text, and the hrefs
BeautifulSoup's `soup.find_all('a', href=True)` yields for that body
(grant-data-collector.py line 33). -/
structure Response where
  status : Nat
  text : String
  links : List String

/-- The pipeline's external world. `fetch` is `requests.get` (an
`Except.error` is a raised exception); `extract` is `trafilatura.extract`,
with `""` standing for a `None` or empty result (both are falsy at line 96);
`llm` maps a page text to the markdown-cleaned model output (lines 167-177);
`parse` is `Grant.model_validate_json` (line 181), `none` a raised
validation error. -/
structure Env where
  fetch : String → Except String Response
  extract : String → String
  llm : String → String
  parse : String → Option Grant

/-- `scrape_site` (grant collector, lines 28-63): the root fetch at line 30
is not inside any try/except, so a fetch error propagates to the caller. -/
def scrape_site (env : Env) (url : String) : Except String (List String) :=
  match env.fetch url with
  | .error e => .error e
  | .ok r => .ok (scrapeLinksFrom grantKeywords url r.links)

/-- `get_html_content_and_extract_text` (lines 74-112): the fetch sits inside
a try/except that turns every raised exception into `(None, None)`; a
non-200 status also yields `(None, None)`; an empty trafilatura result falls
back to the raw HTML. -/
def get_html_content_and_extract_text (env : Env) (url : String) :
    Option (String × String) :=
  match env.fetch url with
  | .error _ => none
  | .ok r =>
    if r.status ≠ 200 then none
    else
      let extracted := env.extract r.text
      some (r.text, if extracted = "" then r.text else extracted)

/-- `extract_grant_info` (lines 115-204), after the markdown cleaning: on a
successful parse the grant is discarded (`none`) when its name is falsy,
the placeholder, or whitespace (line 185); on a parse failure the output is
discarded only when it strips to `''` or `'{}'` (line 196), and otherwise a
default `Grant()` is returned (line 201). -/
def extract_grant_info (env : Env) (page_text : String) : Option Grant :=
  let result := env.llm page_text
  match env.parse result with
  | some grant =>
    if grant.grant_name = "" ∨ grant.grant_name = "Not specified" ∨
        pyStripWs grant.grant_name = "" then none
    else some grant
  | none =>
    if pyStripWs result = "{}" ∨ pyStripWs result = "" then none
    else some ({} : Grant)

/-- One iteration of `run_pipeline`'s page loop (lines 213-246): skip URLs
not starting with `http` (line 217), skip fetch/extraction failures and
empty text (line 224), skip a `None` grant (line 231), then set
`grant.grant_url = p` (line 235) and append unless the lowercased deadline
contains `"closed"` (line 239). The body's own try/except catches nothing
further here because every callee already returns its failures. -/
def processPage (env : Env) (grants : List Grant) (p : String) : List Grant :=
  if !(pyStartswith p "http") then grants
  else
    match get_html_content_and_extract_text env p with
    | none => grants
    | some (_, extracted) =>
      if extracted = "" then grants
      else
        match extract_grant_info env extracted with
        | none => grants
        | some grant =>
          let g2 := { grant with grant_url := p }
          if substrB "closed" (pyLower g2.proposal_deadline) then grants
          else grants ++ [g2]

/-- `run_pipeline` (lines 207-252): `scrape_site` runs before and outside
the loop's try/except, so its error propagates; otherwise the pages are
folded through `processPage` and the collected list is returned. -/
def run_pipeline (env : Env) (url : String) : Except String (List Grant) :=
  match scrape_site env url with
  | .error e => .error e
  | .ok pages => .ok (pages.foldl (processPage env) [])

/-! ## `GrantDataService.collect_grants` (grant_data_service.py 19-33) -/

/-- Python `l[:m]` for an int `m`: a nonnegative `m` takes the first `m`
elements, a negative `m` drops the last `|m|`. -/
def pySliceTo (m : Int) (l : List Grant) : List Grant :=
  if 0 ≤ m then l.take m.toNat else l.take (l.length - m.natAbs)

/-- `collect_grants`: run the pipeline inside a try/except that rewraps any
exception; then `if max_grants and len(grants) > max_grants: grants =
grants[:max_grants]` — `None` and `0` are falsy and leave the list whole. -/
def collect_grants (env : Env) (foundation_url : String)
    (max_grants : Option Int) : Except String (List Grant) :=
  match run_pipeline env foundation_url with
  | .error e =>
    .error ("Failed to collect grants from " ++ foundation_url ++ ": " ++ e)
  | .ok grants =>
    match max_grants with
    | none => .ok grants
    | some m =>
      .ok (if m ≠ 0 ∧ (grants.length : Int) > m then pySliceTo m grants
           else grants)

/-! ## The URL-finder agent (organisation_url_finder_agent.py)

The LangGraph workflow is `search -> process -> (conditional: "continue" ->
search | "end" -> END)` with entry point `search` (lines 169-191).  The
parts of `AgentState` the control flow reads are kept; `organization_name`,
`foundation_data` and `messages` only feed the oracles. -/

/-- The control-flow-relevant slice of `AgentState` (lines 63-71). -/
structure AgentState where
  url : Option String
  attempts : Nat
  max_attempts : Nat
  error : Option String
deriving DecidableEq, Repr

/-- The agent's external world: `searchOutcome k` is the Tavily/LLM call of
the search executed while `attempts = k` (`Except.error` a raised
exception), and `validatedUrl k` is the URL the process node's
extract-and-validate loop settles on after that search bumped `attempts`
to `k` (`none`: no URL extracted or none validated). -/
structure AgentEnv where
  searchOutcome : Nat → Except String Unit
  validatedUrl : Nat → Option String

/-- `_search_node` (lines 193-278): on success `attempts` is incremented
(line 270); on an exception the error is recorded and `attempts` is set to
`max_attempts` to stop retrying (lines 275-276). -/
def search_node (env : AgentEnv) (s : AgentState) : AgentState :=
  match env.searchOutcome s.attempts with
  | .ok _ => { s with attempts := s.attempts + 1 }
  | .error e =>
    { s with error := some ("Search error: " ++ e),
             attempts := s.max_attempts }

/-- `_process_node` (lines 280-345): skipped on a recorded error (line 288);
a validated URL is stored (line 329); otherwise, once `attempts` has reached
`max_attempts`, the give-up error is recorded (line 341). -/
def process_node (env : AgentEnv) (s : AgentState) : AgentState :=
  if s.error.isSome then s
  else
    match env.validatedUrl s.attempts with
    | some u => { s with url := some u }
    | none =>
      if s.max_attempts ≤ s.attempts then
        { s with error := some "Could not find a valid URL after maximum attempts" }
      else s

/-- `_should_continue` (lines 347-376): end on a found URL, end on an error
or exhausted attempts, continue otherwise. -/
def should_continue (s : AgentState) : String :=
  if s.url.isSome then "end"
  else if s.error.isSome || s.max_attempts ≤ s.attempts then "end"
  else "continue"

/-- The compiled graph, run with explicit fuel: each round executes the
search node then the process node (counting the search executions), and
recurses exactly when `_should_continue` answers `"continue"`. -/
def runGraph (env : AgentEnv) : Nat → AgentState → Nat → AgentState × Nat
  | 0, s, count => (s, count)
  | fuel + 1, s, count =>
    let s2 := process_node env (search_node env s)
    if should_continue s2 = "continue" then runGraph env fuel s2 (count + 1)
    else (s2, count + 1)

/-- The initial state `find_url` builds (lines 403-411). -/
def initState (max_attempts : Nat) : AgentState :=
  { url := none, attempts := 0, max_attempts := max_attempts, error := none }

/-! ## Concrete environments used by witnesses and counterexamples -/

/-- A world whose LLM answers unparsable non-empty text on every page. -/
def envA : Env :=
  { fetch := fun _ => .ok ⟨200, "h", []⟩
    extract := fun _ => "text"
    llm := fun _ => "garbage"
    parse := fun _ => none }

/-- A world whose LLM output parses to a grant named "My Grant". -/
def envB : Env :=
  { fetch := fun _ => .ok ⟨200, "h", []⟩
    extract := fun _ => "text"
    llm := fun _ => "j"
    parse := fun _ => some { grant_name := "My Grant" } }

/-- A world where every fetch raises. -/
def envErr : Env :=
  { fetch := fun _ => .error "ConnectionError"
    extract := fun _ => ""
    llm := fun _ => ""
    parse := fun _ => none }

/-- A world whose root page links to one grant page whose fetch times out. -/
def envB2 : Env :=
  { fetch := fun u =>
      if u = "http://x" then .ok ⟨200, "h", ["/grant-a"]⟩ else .error "timeout"
    extract := fun _ => ""
    llm := fun _ => ""
    parse := fun _ => none }

/-- An agent world where every search succeeds and no URL ever validates. -/
def envAg : AgentEnv :=
  { searchOutcome := fun _ => .ok ()
    validatedUrl := fun _ => none }

/-! ## Helper lemmas -/

theorem mem_scrapeLinksFrom_self (kws : List String) (url : String)
    (links : List String) : url ∈ scrapeLinksFrom kws url links := by
  simp only [scrapeLinksFrom, List.mem_dedup]
  split
  · assumption
  · simp

theorem mem_scrapeLinksFrom_cases (kws : List String) (url l : String)
    (links : List String) (hl : l ∈ scrapeLinksFrom kws url links) :
    l = url ∨ ∃ x ∈ links, l = fixLink url x := by
  simp only [scrapeLinksFrom, List.mem_dedup] at hl
  have hl' : l ∈ filterLinks kws url links ∨ l = url := by
    revert hl
    split
    · exact fun hl => Or.inl hl
    · intro hl
      rcases List.mem_append.mp hl with h | h
      · exact Or.inl h
      · exact Or.inr (List.mem_singleton.mp h)
  rcases hl' with h | h
  · right
    simp only [filterLinks, List.mem_map] at h
    obtain ⟨x, hx, hfx⟩ := h
    exact ⟨x, List.mem_of_mem_filter hx, hfx.symm⟩
  · exact Or.inl h

theorem dropWhile_append_stop (q : Char → Bool) (a : List Char) (c : Char)
    (t : List Char) (hc : q c = false) :
    (a ++ c :: t).dropWhile q = a.dropWhile q ++ c :: t := by
  induction a with
  | nil => simp [List.dropWhile_cons, hc]
  | cons x xs ih =>
    by_cases hx : q x = true
    · simp [List.dropWhile_cons, hx, ih]
    · simp only [Bool.not_eq_true] at hx
      simp [List.dropWhile_cons, hx]

theorem rstripSlash_http (url : String) (h : pyStartswith url "http" = true) :
    ∃ t, (rstripSlash url).toList = "http".toList ++ t := by
  have hp : "http".toList <+: url.toList := of_decide_eq_true h
  obtain ⟨t, ht⟩ := hp
  refine ⟨(t.reverse.dropWhile (fun c => c == '/')).reverse, ?_⟩
  show (url.toList.reverse.dropWhile (fun c => c == '/')).reverse
      = "http".toList ++ (t.reverse.dropWhile (fun c => c == '/')).reverse
  rw [← ht]
  have : ("http".toList ++ t).reverse = t.reverse ++ 'p' :: ['t', 't', 'h'] := by
    simp [List.reverse_append]
  rw [this, dropWhile_append_stop _ _ 'p' _ (by decide)]
  simp

theorem pyStartswith_append_of_toList (a b : String) (t : List Char)
    (ha : a.toList = "http".toList ++ t) :
    pyStartswith (a ++ b) "http" = true := by
  apply decide_eq_true
  refine ⟨t ++ b.toList, ?_⟩
  rw [show (a ++ b).toList = a.toList ++ b.toList from String.data_append a b, ha]
  simp

theorem fixLink_http (url l : String) (h : pyStartswith url "http" = true) :
    pyStartswith (fixLink url l) "http" = true := by
  obtain ⟨t, ht⟩ := rstripSlash_http url h
  unfold fixLink
  split
  · exact pyStartswith_append_of_toList _ _ t ht
  · split
    · rw [show rstripSlash url ++ "/" ++ l = (rstripSlash url ++ "/") ++ l from rfl]
      refine pyStartswith_append_of_toList _ _ (t ++ ['/']) ?_
      rw [show (rstripSlash url ++ "/").toList
            = (rstripSlash url).toList ++ "/".toList from String.data_append _ _, ht]
      simp
    · next h1 h2 =>
        simp only [Bool.not_eq_true', Bool.not_eq_false] at h2
        exact h2

theorem scrapeLinksFrom_http (kws : List String) (url : String)
    (links : List String) (h : pyStartswith url "http" = true) :
    ∀ l ∈ scrapeLinksFrom kws url links, pyStartswith l "http" = true := by
  intro l hl
  rcases mem_scrapeLinksFrom_cases kws url l links hl with rfl | ⟨x, _, rfl⟩
  · exact h
  · exact fixLink_http url x h

/-! ## Claim C5 -/

/-- C5 counterexample: the declared field `eligible_applicants` of a Grant
constructed with no arguments holds the empty list, not the string
`"Not specified"`, so not every one of the fourteen fields defaults to the
sentinel. -/
theorem c5_counterexample :
    Grant.fieldValue {} GrantField.eligible_applicants ≠ Val.str "Not specified" := by
  decide

/-- C5 (amended): of the fourteen declared fields of a Grant constructed
with no arguments, the twelve string fields default to `"Not specified"`,
while `eligible_applicants` defaults to the empty list and `contact_info`
to a dict whose three entries each hold `"Not specified"`. -/
theorem c5_defaults :
    Grant.fieldValue {} GrantField.grant_name = Val.str "Not specified" ∧
    Grant.fieldValue {} GrantField.funding_priorities = Val.str "Not specified" ∧
    Grant.fieldValue {} GrantField.types_of_grant = Val.str "Not specified" ∧
    Grant.fieldValue {} GrantField.eligibility_criteria = Val.str "Not specified" ∧
    Grant.fieldValue {} GrantField.eligible_locations = Val.str "Not specified" ∧
    Grant.fieldValue {} GrantField.grant_amount_range = Val.str "Not specified" ∧
    Grant.fieldValue {} GrantField.grant_amount = Val.str "Not specified" ∧
    Grant.fieldValue {} GrantField.proposal_deadline = Val.str "Not specified" ∧
    Grant.fieldValue {} GrantField.recurrence = Val.str "Not specified" ∧
    Grant.fieldValue {} GrantField.organization_info = Val.str "Not specified" ∧
    Grant.fieldValue {} GrantField.grant_summary = Val.str "Not specified" ∧
    Grant.fieldValue {} GrantField.grant_url = Val.str "Not specified" ∧
    Grant.fieldValue {} GrantField.eligible_applicants = Val.list [] ∧
    Grant.fieldValue {} GrantField.contact_info =
      Val.dict [("email", "Not specified"), ("phone", "Not specified"),
                ("address", "Not specified")] := by
  decide

/-! ## Claim C7 -/

/-- C7: whatever the input URL and whatever hrefs the fetched page carries
(even none that pass the keyword filter), the root URL itself is a member
of the candidate-link list `scrape_site` returns, in both collectors. -/
theorem c7_root_included (url : String) (links : List String) :
    url ∈ scrapeLinksFrom grantKeywords url links ∧
    url ∈ scrapeLinksFrom orgKeywords url links :=
  ⟨mem_scrapeLinksFrom_self _ url links, mem_scrapeLinksFrom_self _ url links⟩

/-! ## Claim C8 -/

/-- C8: the candidate-link list `scrape_site` returns holds no duplicate
entries, for every input page and in both the grant and organisation
collectors (line 55 / line 51, `list(set(...))`). -/
theorem c8_nodup (url : String) (links : List String) :
    (scrapeLinksFrom grantKeywords url links).Nodup ∧
    (scrapeLinksFrom orgKeywords url links).Nodup :=
  ⟨List.nodup_dedup _, List.nodup_dedup _⟩

/-! ## Claim C6 -/

/-- C6: when the root URL starts with `"http"`, every candidate link the
collectors return is absolute: a link beginning with `/` is prefixed with
the root URL stripped of trailing slashes, a link not beginning with `http`
is prefixed with the root plus `/`, a link already beginning with `http` is
kept unchanged — and so every returned link starts with `"http"`. -/
theorem c6_absolute_links (url : String) (links : List String)
    (h : pyStartswith url "http" = true) :
    (∀ l ∈ scrapeLinksFrom grantKeywords url links, pyStartswith l "http" = true) ∧
    (∀ l ∈ scrapeLinksFrom orgKeywords url links, pyStartswith l "http" = true) ∧
    (∀ x, pyStartswith x "/" = true → fixLink url x = rstripSlash url ++ x) ∧
    (∀ x, pyStartswith x "/" = false → pyStartswith x "http" = false →
      fixLink url x = rstripSlash url ++ "/" ++ x) ∧
    (∀ x, pyStartswith x "http" = true → pyStartswith x "/" = false →
      fixLink url x = x) := by
  refine ⟨scrapeLinksFrom_http _ url links h, scrapeLinksFrom_http _ url links h,
    ?_, ?_, ?_⟩
  · intro x hx
    simp [fixLink, hx]
  · intro x hx1 hx2
    simp [fixLink, hx1, hx2]
  · intro x hx1 hx2
    simp [fixLink, hx1, hx2]

/-- C6 witness: at the concrete root `http://a.com` with one relative href
`/grants`, the normalized candidate link starts with `http`. -/
theorem c6_witness :
    pyStartswith "http://a.com/grants" "http" = true :=
  (c6_absolute_links "http://a.com" ["/grants"] (by decide)).1
    "http://a.com/grants" (by decide)

/-! ## The page loop rewritten under its guards -/

theorem processPage_of_extract (env : Env) (acc : List Grant) (p h t : String)
    (h1 : pyStartswith p "http" = true)
    (h2 : get_html_content_and_extract_text env p = some (h, t))
    (h3 : t ≠ "") :
    processPage env acc p =
      match extract_grant_info env t with
      | none => acc
      | some g =>
        if substrB "closed" (pyLower g.proposal_deadline) then acc
        else acc ++ [{ g with grant_url := p }] := by
  unfold processPage
  rw [h1, h2]
  simp [h3]

/-! ## Claim C1 -/

/-- C1 counterexample: on a page whose LLM output is unparsable as JSON
(`parse` raises) but non-empty, the pipeline does NOT discard the page: the
fallback at line 201 builds a default `Grant()`, and since its default
deadline does not contain "closed" the record is appended to the results. -/
theorem c1_counterexample :
    envA.parse (envA.llm "text") = none ∧
    pyStripWs (envA.llm "text") ≠ "" ∧
    pyStripWs (envA.llm "text") ≠ "{}" ∧
    run_pipeline envA "http://x" = .ok [{ grant_url := "http://x" }] ∧
    [({ grant_url := "http://x" } : Grant)] ≠ [] :=
  ⟨rfl, by decide, by decide, rfl, by decide⟩

/-- C1 (amended): a page yields no grant record exactly when the parsed
grant_name is empty, the placeholder, or whitespace, or when the output is
unparsable AND strips to `''` or `'{}'`; an unparsable output that strips
to anything else instead yields a schema-default Grant record that is
appended (its default deadline passes the "closed" filter). -/
theorem c1_no_record_conditions (env : Env) (acc : List Grant) (p h t : String)
    (h1 : pyStartswith p "http" = true)
    (h2 : get_html_content_and_extract_text env p = some (h, t))
    (h3 : t ≠ "") :
    (extract_grant_info env t = none → processPage env acc p = acc) ∧
    (extract_grant_info env t = none ↔
      (∃ g, env.parse (env.llm t) = some g ∧
        (g.grant_name = "" ∨ g.grant_name = "Not specified" ∨
          pyStripWs g.grant_name = "")) ∨
      (env.parse (env.llm t) = none ∧
        (pyStripWs (env.llm t) = "{}" ∨ pyStripWs (env.llm t) = ""))) ∧
    (env.parse (env.llm t) = none → pyStripWs (env.llm t) ≠ "{}" →
      pyStripWs (env.llm t) ≠ "" →
      processPage env acc p = acc ++ [{ grant_url := p }]) := by
  refine ⟨?_, ?_, ?_⟩
  · intro he
    rw [processPage_of_extract env acc p h t h1 h2 h3, he]
  · unfold extract_grant_info
    cases hp : env.parse (env.llm t) with
    | none =>
      simp only [hp]
      constructor
      · intro he
        split at he
        · exact Or.inr ⟨by simp, by assumption⟩
        · exact absurd he (by simp)
      · intro hc
        rcases hc with ⟨g, hg, _⟩ | ⟨_, hor⟩
        · exact absurd hg (by simp)
        · simp [hor]
    | some g =>
      simp only [hp]
      constructor
      · intro he
        split at he
        · exact Or.inl ⟨g, by simp, by assumption⟩
        · exact absurd he (by simp)
      · intro hc
        rcases hc with ⟨g', hg', hor⟩ | ⟨hn, _⟩
        · injection hg' with hgg
          subst hgg
          rw [if_pos hor]
        · exact absurd hn (by simp)
  · intro hp hne1 hne2
    have he : extract_grant_info env t = some ({} : Grant) := by
      simp [extract_grant_info, hp, hne1, hne2]
    rw [processPage_of_extract env acc p h t h1 h2 h3, he]
    rfl

/-- C1 witness: with the concrete unparsable world `envA`, the empty/'{}'
conditions fail and the page contributes the default record. -/
theorem c1_witness :
    processPage envA [] "http://x" = [{ grant_url := "http://x" }] :=
  (c1_no_record_conditions envA [] "http://x" "h" "text" (by decide) rfl
    (by decide)).2.2 rfl (by decide) (by decide)

/-! ## Claim C2 -/

/-- C2 counterexample: the root-page fetch of `scrape_site` (line 30) is
not inside any try/except and `run_pipeline` calls `scrape_site` outside
its page loop's guard, so a network failure on the root fetch propagates
out of `run_pipeline` instead of being caught. -/
theorem c2_counterexample :
    run_pipeline envErr "http://x" = .error "ConnectionError" := rfl

/-- C2 (amended): every per-page fetch is guarded — when the root fetch
succeeds `run_pipeline` never raises, and a candidate page whose fetch
raises is simply skipped, the loop moving on — but the root-page fetch
itself is unguarded (see the counterexample). -/
theorem c2_guarded_pages (env : Env) (url : String) (r : Response)
    (hr : env.fetch url = .ok r) :
    (∃ gs, run_pipeline env url = .ok gs) ∧
    (∀ acc p e, env.fetch p = .error e → processPage env acc p = acc) := by
  constructor
  · exact ⟨List.foldl (processPage env) [] (scrapeLinksFrom grantKeywords url r.links),
      by simp [run_pipeline, scrape_site, hr]⟩
  · intro acc p e he
    unfold processPage
    cases hsw : pyStartswith p "http"
    · simp
    · simp [get_html_content_and_extract_text, he]

/-- C2 witness: in the concrete world `envB2` the root fetch succeeds, and
the discovered grant page whose fetch times out is skipped. -/
theorem c2_witness :
    processPage envB2 [] "http://x/grant-a" = [] :=
  (c2_guarded_pages envB2 "http://x" ⟨200, "h", ["/grant-a"]⟩ rfl).2 []
    "http://x/grant-a" "timeout" rfl

/-! ## Claim C3 -/

/-- C3 counterexample: `run_pipeline` mutates the grant between
construction and serialization — line 235 overwrites `grant_url` with the
page URL, so the appended record's `grant_url` differs from the one
`extract_grant_info` produced. -/
theorem c3_counterexample :
    extract_grant_info envB "text" = some { grant_name := "My Grant" } ∧
    run_pipeline envB "http://x" =
      .ok [{ grant_name := "My Grant", grant_url := "http://x" }] ∧
    ({ grant_name := "My Grant", grant_url := "http://x" } : Grant).grant_url ≠
      ({ grant_name := "My Grant" } : Grant).grant_url :=
  ⟨rfl, rfl, by decide⟩

/-- C3 (amended): every grant `run_pipeline` appends equals the grant
`extract_grant_info` produced with exactly one field changed: `grant_url`
is set to the page URL, and the thirteen other fields are untouched. -/
theorem c3_update_only_url (env : Env) (acc : List Grant) (p h t : String)
    (g : Grant)
    (h1 : pyStartswith p "http" = true)
    (h2 : get_html_content_and_extract_text env p = some (h, t))
    (h3 : t ≠ "")
    (h4 : extract_grant_info env t = some g)
    (h5 : substrB "closed" (pyLower g.proposal_deadline) = false) :
    processPage env acc p = acc ++ [{ g with grant_url := p }] ∧
    ({ g with grant_url := p }).grant_url = p ∧
    ({ g with grant_url := p }).grant_name = g.grant_name ∧
    ({ g with grant_url := p }).funding_priorities = g.funding_priorities ∧
    ({ g with grant_url := p }).types_of_grant = g.types_of_grant ∧
    ({ g with grant_url := p }).eligibility_criteria = g.eligibility_criteria ∧
    ({ g with grant_url := p }).eligible_applicants = g.eligible_applicants ∧
    ({ g with grant_url := p }).eligible_locations = g.eligible_locations ∧
    ({ g with grant_url := p }).grant_amount_range = g.grant_amount_range ∧
    ({ g with grant_url := p }).grant_amount = g.grant_amount ∧
    ({ g with grant_url := p }).proposal_deadline = g.proposal_deadline ∧
    ({ g with grant_url := p }).recurrence = g.recurrence ∧
    ({ g with grant_url := p }).contact_info = g.contact_info ∧
    ({ g with grant_url := p }).organization_info = g.organization_info ∧
    ({ g with grant_url := p }).grant_summary = g.grant_summary := by
  refine ⟨?_, rfl, rfl, rfl, rfl, rfl, rfl, rfl, rfl, rfl, rfl, rfl, rfl,
    rfl, rfl⟩
  rw [processPage_of_extract env acc p h t h1 h2 h3, h4]
  simp [h5]

/-- C3 witness: in the concrete world `envB` the appended record is the
extracted grant with only its URL filled in. -/
theorem c3_witness :
    processPage envB [] "http://x" =
      [{ grant_name := "My Grant", grant_url := "http://x" }] :=
  (c3_update_only_url envB [] "http://x" "h" "text" { grant_name := "My Grant" }
    (by decide) rfl (by decide) rfl (by decide)).1

/-! ## Claim C4 -/

/-- C4: an extracted grant is appended to `run_pipeline`'s result list
exactly when the lowercased `proposal_deadline` does not contain the
substring `"closed"`; the final list is just the fold of this per-page
step, so no other deadline test (no date parsing) affects inclusion. -/
theorem c4_closed_filter (env : Env) (url : String) (pages : List String)
    (acc : List Grant) (p h t : String) (g : Grant)
    (hs : scrape_site env url = .ok pages)
    (h1 : pyStartswith p "http" = true)
    (h2 : get_html_content_and_extract_text env p = some (h, t))
    (h3 : t ≠ "")
    (h4 : extract_grant_info env t = some g) :
    run_pipeline env url = .ok (pages.foldl (processPage env) []) ∧
    processPage env acc p =
      (if substrB "closed" (pyLower g.proposal_deadline) then acc
       else acc ++ [{ g with grant_url := p }]) ∧
    ({ g with grant_url := p } ∉ acc →
      ({ g with grant_url := p } ∈ processPage env acc p ↔
        substrB "closed" (pyLower g.proposal_deadline) = false)) := by
  have hpp : processPage env acc p =
      (if substrB "closed" (pyLower g.proposal_deadline) then acc
       else acc ++ [{ g with grant_url := p }]) := by
    rw [processPage_of_extract env acc p h t h1 h2 h3, h4]
  refine ⟨?_, hpp, ?_⟩
  · unfold run_pipeline
    rw [hs]
  · intro hnin
    rw [hpp]
    by_cases hcl : substrB "closed" (pyLower g.proposal_deadline) = true
    · rw [if_pos hcl, hcl]
      simp [hnin]
    · rw [Bool.not_eq_true] at hcl
      rw [hcl]
      simp

/-- C4 witness: in `envB` the deadline is the default and the single page's
grant reaches the final list. -/
theorem c4_witness :
    run_pipeline envB "http://x" = .ok (["http://x"].foldl (processPage envB) []) :=
  (c4_closed_filter envB "http://x" ["http://x"] [] "http://x" "h" "text"
    { grant_name := "My Grant" } rfl (by decide) rfl (by decide) rfl).1

/-! ## Claim C9 -/

theorem should_continue_eq (s : AgentState) :
    should_continue s =
      (if s.url = none ∧ s.error = none ∧ s.attempts < s.max_attempts
       then "continue" else "end") := by
  obtain ⟨u, a, m, e⟩ := s
  cases u with
  | some v => simp [should_continue]
  | none =>
    cases e with
    | some err => simp [should_continue]
    | none =>
      by_cases hm : m ≤ a
      · have hnl : ¬ a < m := by omega
        simp [should_continue, hm, hnl]
      · have hl : a < m := by omega
        simp [should_continue, hm, hl]

theorem should_continue_end_or (s : AgentState) :
    should_continue s = "continue" ∨ should_continue s = "end" := by
  rw [should_continue_eq]
  split
  · exact Or.inl rfl
  · exact Or.inr rfl

theorem continue_facts (s : AgentState)
    (h : should_continue s = "continue") :
    s.url = none ∧ s.error = none ∧ s.attempts < s.max_attempts := by
  rw [should_continue_eq] at h
  by_cases hc : s.url = none ∧ s.error = none ∧ s.attempts < s.max_attempts
  · exact hc
  · rw [if_neg hc] at h
    exact absurd h (by decide)

theorem step_of_continue (env : AgentEnv) (s : AgentState)
    (h : should_continue (process_node env (search_node env s)) = "continue") :
    (process_node env (search_node env s)).attempts = s.attempts + 1 ∧
    (process_node env (search_node env s)).max_attempts = s.max_attempts := by
  obtain ⟨hu, he, _⟩ := continue_facts _ h
  cases hso : env.searchOutcome s.attempts with
  | error e =>
    exfalso
    have hcomp : (process_node env (search_node env s)).error =
        some ("Search error: " ++ e) := by
      simp [process_node, search_node, hso]
    rw [hcomp] at he
    exact absurd he (by simp)
  | ok u =>
    cases hse : s.error with
    | some err =>
      exfalso
      have hcomp : (process_node env (search_node env s)).error = some err := by
        simp [process_node, search_node, hso, hse]
      rw [hcomp] at he
      exact absurd he (by simp)
    | none =>
      cases hv : env.validatedUrl (s.attempts + 1) with
      | some u2 =>
        exfalso
        have hcomp : (process_node env (search_node env s)).url = some u2 := by
          simp [process_node, search_node, hso, hse, hv]
        rw [hcomp] at hu
        exact absurd hu (by simp)
      | none =>
        by_cases hm : s.max_attempts ≤ s.attempts + 1
        · exfalso
          have hcomp : (process_node env (search_node env s)).error =
              some "Could not find a valid URL after maximum attempts" := by
            simp [process_node, search_node, hso, hse, hv, hm]
          rw [hcomp] at he
          exact absurd he (by simp)
        · constructor <;>
            simp [process_node, search_node, hso, hse, hv, hm]

theorem runGraph_reaches_end (env : AgentEnv) :
    ∀ (fuel : Nat) (s : AgentState) (c : Nat),
      s.max_attempts ≤ s.attempts + fuel →
      should_continue (runGraph env fuel s c).1 = "end" ∧
      (runGraph env fuel s c).2 ≤ c + fuel := by
  intro fuel
  induction fuel with
  | zero =>
    intro s c hf
    refine ⟨?_, Nat.le_refl c⟩
    rcases should_continue_end_or s with hc | hc
    · obtain ⟨_, _, hlt⟩ := continue_facts s hc
      omega
    · simpa [runGraph] using hc
  | succ fuel ih =>
    intro s c hf
    simp only [runGraph]
    by_cases hc : should_continue (process_node env (search_node env s))
        = "continue"
    · rw [if_pos hc]
      obtain ⟨ha, hm⟩ := step_of_continue env s hc
      have hrec := ih (process_node env (search_node env s)) (c + 1)
        (by rw [ha, hm]; omega)
      exact ⟨hrec.1, by omega⟩
    · rw [if_neg hc]
      rcases should_continue_end_or (process_node env (search_node env s))
        with h | h
      · exact absurd h hc
      · exact ⟨h, by omega⟩

theorem runGraph_fuel_stable (env : AgentEnv) :
    ∀ (f1 f2 : Nat) (s : AgentState) (c : Nat),
      1 ≤ f1 → s.max_attempts ≤ s.attempts + f1 → f1 ≤ f2 →
      runGraph env f1 s c = runGraph env f2 s c := by
  intro f1
  induction f1 with
  | zero => intro f2 s c h1 _ _; omega
  | succ k ih =>
    intro f2 s c _ hmax hle
    obtain ⟨m, rfl⟩ : ∃ m, f2 = m + 1 := ⟨f2 - 1, by omega⟩
    simp only [runGraph]
    by_cases hc : should_continue (process_node env (search_node env s))
        = "continue"
    · rw [if_pos hc, if_pos hc]
      obtain ⟨ha, hm⟩ := step_of_continue env s hc
      obtain ⟨_, _, hlt⟩ := continue_facts _ hc
      have hk1 : 1 ≤ k := by omega
      exact ih m (process_node env (search_node env s)) (c + 1) hk1
        (by omega) (by omega)
    · rw [if_neg hc, if_neg hc]

/-- C9: the URL-finder loop is bounded by the max-attempts counter: for every
`max_attempts = n ≥ 1` the search node executes at most `n` times before the
graph reaches END, the loop stops exactly when a URL was validated, an error
was recorded or `attempts` reached `n`, and giving the runner any more fuel
than `n` changes nothing — `find_url` always terminates. -/
theorem c9_bounded_loop (env : AgentEnv) (n : Nat) (hn : 1 ≤ n) :
    (runGraph env n (initState n) 0).2 ≤ n ∧
    should_continue (runGraph env n (initState n) 0).1 = "end" ∧
    (∀ fuel, n ≤ fuel →
      runGraph env fuel (initState n) 0 = runGraph env n (initState n) 0) ∧
    (∀ s : AgentState, should_continue s = "end" ↔
      (s.url.isSome = true ∨ s.error.isSome = true ∨
        s.max_attempts ≤ s.attempts)) := by
  have hrun := runGraph_reaches_end env n (initState n) 0 (by simp [initState])
  refine ⟨by simpa using hrun.2, hrun.1, ?_, ?_⟩
  · intro fuel hfuel
    exact (runGraph_fuel_stable env n fuel (initState n) 0 hn
      (by simp [initState]) hfuel).symm
  · intro s
    rw [should_continue_eq]
    by_cases hc : s.url = none ∧ s.error = none ∧ s.attempts < s.max_attempts
    · rw [if_pos hc]
      constructor
      · intro hcon
        exact absurd hcon (by decide)
      · intro hcon
        exfalso
        obtain ⟨hu, he, hm⟩ := hc
        rcases hcon with h | h | h
        · rw [hu] at h
          exact absurd h (by decide)
        · rw [he] at h
          exact absurd h (by decide)
        · omega
    · rw [if_neg hc]
      constructor
      · intro _
        by_cases hu : s.url = none
        · by_cases he : s.error = none
          · have hm : ¬ s.attempts < s.max_attempts :=
              fun hlt => hc ⟨hu, he, hlt⟩
            right; right
            omega
          · right; left
            cases hoe : s.error with
            | none => exact absurd hoe he
            | some v => simp
        · left
          cases hou : s.url with
          | none => exact absurd hou hu
          | some v => simp
      · intro _
        rfl

/-- C9 witness: with one allowed attempt and no validating URL, the loop
runs its single search and ends. -/
theorem c9_witness : (runGraph envAg 1 (initState 1) 0).2 ≤ 1 :=
  (c9_bounded_loop envAg 1 (by decide)).1

/-! ## Claim C10 -/

/-- C10: with a positive `max_grants = n` the service returns the first
`min n (length)` grants of the pipeline's list — a prefix, in order — and
with `max_grants` equal to `None` or `0` it returns the whole list. -/
theorem c10_truncation (env : Env) (url : String) (n : Int)
    (grants : List Grant)
    (hg : run_pipeline env url = .ok grants) (hn : 0 < n) :
    collect_grants env url (some n) = .ok (grants.take n.toNat) ∧
    (grants.take n.toNat).length = min n.toNat grants.length ∧
    grants.take n.toNat <+: grants ∧
    collect_grants env url none = .ok grants ∧
    collect_grants env url (some 0) = .ok grants := by
  refine ⟨?_, List.length_take _ _, List.take_prefix _ _, ?_, ?_⟩
  · unfold collect_grants
    rw [hg]
    dsimp only
    by_cases hlen : (grants.length : Int) > n
    · rw [if_pos ⟨by omega, hlen⟩]
      unfold pySliceTo
      rw [if_pos (by omega)]
    · rw [if_neg (fun hcon => hlen hcon.2)]
      have hle : grants.length ≤ n.toNat := by omega
      rw [List.take_of_length_le hle]
  · unfold collect_grants
    rw [hg]
  · unfold collect_grants
    rw [hg]
    dsimp only
    rw [if_neg (fun hcon => hcon.1 rfl)]

/-- C10 witness: the concrete pipeline list of `envB` is returned whole for
`max_grants = 1` (its length is 1). -/
theorem c10_witness :
    collect_grants envB "http://x" (some 1) =
      .ok ([({ grant_name := "My Grant", grant_url := "http://x" } : Grant)].take
        (Int.toNat 1)) :=
  (c10_truncation envB "http://x" 1
    [{ grant_name := "My Grant", grant_url := "http://x" }] rfl (by decide)).1

end GrantWriter
